import Mathlib

/-!
Verification of the NumPy 2 compatibility shim
(`numpy/_core/include/numpy/npy_2_compat.h`).

The header is a C preprocessor layer.  We embed it shallowly:

* the compile-time gate (`#if NPY_FEATURE_VERSION >= NPY_2_0_API_VERSION /
  #elif NPY_ABI_VERSION < 0x02000000 / #else`) becomes a total Lean function
  from the two build constants to a three-valued path type;
* each version-sensitive macro becomes one Lean definition per gate path,
  with the dual-path definitions taking the cached runtime version as an
  explicit argument;
* the `#ifndef NPY_FEATURE_VERSION #error` guard becomes a function from an
  optional feature version to either a compile error (carrying the exact
  message) or a configured build;
* `PyArray_ImportNumPyAPI` and the runtime-version cache become explicit
  state passing on a process state holding the (optional) imported API table.

Constants and struct layouts that live in NumPy headers outside this file
(`NPY_INTP`, `NPY_LONG`, `NPY_MIN_INT`, `NPY_NTYPES_LEGACY`, the 1.x and 2.x
descriptor structs, the generated `_import_array` glue) are modelled from the
specification and marked as such in their doc comments.
-/

/-- The 2.0 generation threshold.  Source line 57 defines it as `0x00000012`
for ABI < 2 builds; for ABI >= 2 builds the same value is supplied by the
2.x headers. -/
def NPY_2_0_API_VERSION : Nat := 0x00000012

/-- The three definition paths the compile-time gate can select
(source lines 105, 115, 129). -/
inductive GatePath where
  | newOnly
  | legacyOnly
  | dualPath
deriving DecidableEq

/-- The compile-time gate, source lines 105/115/129:
`#if NPY_FEATURE_VERSION >= NPY_2_0_API_VERSION` selects the new-only
definitions, `#elif NPY_ABI_VERSION < 0x02000000` the legacy-only
definitions, `#else` the dual-path definitions. -/
def gateSelect (featureVersion abiVersion : Nat) : GatePath :=
  if NPY_2_0_API_VERSION ≤ featureVersion then GatePath.newOnly
  else if abiVersion < 0x02000000 then GatePath.legacyOnly
  else GatePath.dualPath

/-- The exact `#error` message of source lines 45-49 (concatenated C string
literals, including the source's spelling). -/
def npyFeatureVersionErrorMessage : String :=
  "The NumPy 2 compat header requires `import_array()` for which the `ndarraytypes.h` header include is not sufficient.  Please include it after `numpy/ndarrayobject.h` or similar.\nTo simplify includsion, you may use `PyArray_ImportNumPy()` which is defined in the compat header and is lightweight (can be)."

/-- Outcome of including the compat header: either the `#error` of lines
44-50 fires, or the build is configured with the given feature version and
the gate-selected path. -/
inductive CompatHeaderResult where
  | compileError (message : String)
  | configured (featureVersion : Nat) (path : GatePath)
deriving DecidableEq

/-- Including the header, source lines 44-50 and 105-148: if
`NPY_FEATURE_VERSION` is not defined the hard `#error` fires; otherwise the
gate selects a path using exactly the supplied feature version. -/
def npy2CompatInclude (featureVersion : Option Nat) (abiVersion : Nat) :
    CompatHeaderResult :=
  match featureVersion with
  | none => CompatHeaderResult.compileError npyFeatureVersionErrorMessage
  | some fv => CompatHeaderResult.configured fv (gateSelect fv abiVersion)

/-- Modelled from the spec: the two fixed type identifiers (`NPY_INTP`,
`NPY_LONG`) named by the default-integer accessor.  Their numeric enum
values come from `ndarraytypes.h`, which is not part of this fragment; the
spec treats them as two fixed, distinct identifiers. -/
inductive TypeIdent where
  | NPY_INTP
  | NPY_LONG
deriving DecidableEq

/-- Modelled from the spec: `NPY_MIN_INT` from `npy_common.h` (not part of
this fragment), the minimum value of a 32-bit signed C `int`. -/
def NPY_MIN_INT : Int := -2147483648

/-- New-only path, source line 106: `#define NPY_DEFAULT_INT NPY_INTP`. -/
def NPY_DEFAULT_INT_newOnly : TypeIdent := TypeIdent.NPY_INTP

/-- New-only path, source line 107: `#define NPY_RAVEL_AXIS NPY_MIN_INT`. -/
def NPY_RAVEL_AXIS_newOnly : Int := NPY_MIN_INT

/-- New-only path, source line 108: `#define NPY_MAXARGS 64`. -/
def NPY_MAXARGS_newOnly : Nat := 64

/-- Legacy-only path, source line 116: `#define NPY_DEFAULT_INT NPY_LONG`. -/
def NPY_DEFAULT_INT_legacyOnly : TypeIdent := TypeIdent.NPY_LONG

/-- Legacy-only path, source line 117: `#define NPY_RAVEL_AXIS 32`. -/
def NPY_RAVEL_AXIS_legacyOnly : Int := 32

/-- Legacy-only path, source line 118: `#define NPY_MAXARGS 32`. -/
def NPY_MAXARGS_legacyOnly : Nat := 32

/-- Modelled from the spec: the numeric value of `NPY_NTYPES_LEGACY` (the
count of built-in dtypes) comes from `ndarraytypes.h`, not this fragment;
the alias claim depends only on the alias equality, not the value. -/
def NPY_NTYPES_LEGACY : Nat := 24

/-- Legacy-only path, source line 127:
`#define NPY_NTYPES NPY_NTYPES_LEGACY`. -/
def NPY_NTYPES : Nat := NPY_NTYPES_LEGACY

/-- Dual path, source lines 130-131: the default-integer accessor branches
on the cached runtime version. -/
def NPY_DEFAULT_INT_dualPath (runtimeVersion : Nat) : TypeIdent :=
  if NPY_2_0_API_VERSION ≤ runtimeVersion then TypeIdent.NPY_INTP
  else TypeIdent.NPY_LONG

/-- Dual path, source lines 132-133: the axis-sentinel accessor yields `-1`
for a current runtime and `32` for a legacy runtime. -/
def NPY_RAVEL_AXIS_dualPath (runtimeVersion : Nat) : Int :=
  if NPY_2_0_API_VERSION ≤ runtimeVersion then -1 else 32

/-- Dual path, source lines 134-135: the maximum-argument-count accessor. -/
def NPY_MAXARGS_dualPath (runtimeVersion : Nat) : Nat :=
  if NPY_2_0_API_VERSION ≤ runtimeVersion then 64 else 32

/-- Modelled from the spec: the 1.x descriptor layout (the struct the 2.x
headers name `PyArray_DescrProto`), reduced to the one field the shim
reads.  Its `flags` field is a C `char`, modelled as its integer value. -/
structure PyArray_DescrProto where
  flags : Int
deriving DecidableEq

/-- Modelled from the spec: the 2.x descriptor layout, reduced to the one
field the shim reads.  Its `flags` field is an `npy_uint64`, modelled as a
natural number. -/
structure PyArray_Descr2x where
  flags : Nat
deriving DecidableEq

/-- Modelled from the spec: a raw descriptor handle is in exactly one of
the two generation layouts (the spec's design notes render the raw layout
reinterpretation as a tagged union over the two known layouts). -/
inductive DescrHandle where
  | legacyLayout (d : PyArray_DescrProto)
  | currentLayout (d : PyArray_Descr2x)
deriving DecidableEq

/-- New-only path, source lines 110-114: `(unsigned char)dtype->flags`
widened to `npy_uint64`; the unsigned-char conversion is reduction mod
2^8. -/
def PyDataType_FLAGS_newOnly (dtype : PyArray_Descr2x) : Nat :=
  dtype.flags % 256

/-- Legacy-only path, source lines 120-124: `(unsigned char)dtype->flags`
on the 1.x layout, widened to `npy_uint64`. -/
def PyDataType_FLAGS_legacyOnly (dtype : PyArray_DescrProto) : Nat :=
  (dtype.flags % 256).toNat

/-- Dual path, source lines 137-147: branch on the cached runtime version
and reinterpret the handle in the matching generation layout.
Reinterpreting a handle in the wrong layout is a cross-generation type
confusion (undefined behavior in the source), modelled as `none`. -/
def PyDataType_FLAGS_dualPath (runtimeVersion : Nat) (dtype : DescrHandle) :
    Option Nat :=
  if NPY_2_0_API_VERSION ≤ runtimeVersion then
    match dtype with
    | DescrHandle.currentLayout d => some (d.flags % 256)
    | DescrHandle.legacyLayout _ => none
  else
    match dtype with
    | DescrHandle.legacyLayout d => some ((d.flags % 256).toNat)
    | DescrHandle.currentLayout _ => none

/-- Modelled from the spec: the host library's live API table, reduced to
the generation value the shim reads from it. -/
structure PyArrayAPITable where
  version : Nat
deriving DecidableEq

/-- Process state for the shim: the `PyArray_API` handle, which is `none`
before import. -/
structure ProcState where
  pyArrayAPI : Option PyArrayAPITable
deriving DecidableEq

/-- Modelled from the spec: `_import_array` (generated API glue, not part
of this fragment) reads the host's live API table: on success it sets the
handle and yields 0, on failure (no table available) it yields a negative
status and leaves the state unchanged. -/
def importArrayCore (host : Option PyArrayAPITable) (s : ProcState) :
    Int × ProcState :=
  match host with
  | some table => (0, { pyArrayAPI := some table })
  | none => (-1, s)

/-- Source lines 73-80: `PyArray_ImportNumPyAPI` imports only when
`PyArray_API == NULL`; `import_array1(-1)` returns `-1` if the inner import
fails, otherwise the function returns 0. -/
def PyArray_ImportNumPyAPI (host : Option PyArrayAPITable) (s : ProcState) :
    Int × ProcState :=
  match s.pyArrayAPI with
  | some _ => (0, s)
  | none =>
    match importArrayCore host s with
    | (r, s2) => if r < 0 then (-1, s2) else (0, s2)

/-- Source line 63: for an ABI < 2 build, `PyArray_RUNTIME_VERSION` is the
compile-time constant `NPY_FEATURE_VERSION`. -/
def PyArray_RUNTIME_VERSION_legacyBuild (npyFeatureVersion : Nat) : Nat :=
  npyFeatureVersion

/-- Modelled from the spec: for an ABI >= 2 build,
`PyArray_RUNTIME_VERSION` (generated API header, not part of this fragment)
reads the generation value from the imported, immutable API table; before
the import, the read dereferences an unset handle (modelled as `none`). -/
def PyArray_RUNTIME_VERSION_read (s : ProcState) : Option Nat :=
  match s.pyArrayAPI with
  | some table => some table.version
  | none => none

/-- The operations this layer exposes on the process state. -/
inductive ShimOp where
  | importNumPyAPI
  | readRuntimeVersion
deriving DecidableEq

/-- One shim operation: the import helper may update the state; a
runtime-version read is a pure read. -/
def shimStep (host : Option PyArrayAPITable) (s : ProcState) :
    ShimOp → ProcState
  | ShimOp.importNumPyAPI => (PyArray_ImportNumPyAPI host s).2
  | ShimOp.readRuntimeVersion => s

/-- Run a sequence of shim operations from a state. -/
def shimRun (host : Option PyArrayAPITable) (s : ProcState)
    (ops : List ShimOp) : ProcState :=
  ops.foldl (shimStep host) s

theorem shimStep_preserves_imported (host : Option PyArrayAPITable)
    (s : ProcState) (t : PyArrayAPITable) (h : s.pyArrayAPI = some t)
    (op : ShimOp) : shimStep host s op = s := by
  cases op with
  | importNumPyAPI =>
    simp only [shimStep, PyArray_ImportNumPyAPI, h]
  | readRuntimeVersion => rfl

theorem shimRun_preserves_imported (host : Option PyArrayAPITable)
    (s : ProcState) (t : PyArrayAPITable) (h : s.pyArrayAPI = some t)
    (ops : List ShimOp) : shimRun host s ops = s := by
  induction ops with
  | nil => rfl
  | cons op ops ih =>
    show shimRun host (shimStep host s op) ops = s
    rw [shimStep_preserves_imported host s t h op, ih]

theorem byte_toNat_le (i : Int) : (i % 256).toNat ≤ 255 := by
  have h1 : 0 ≤ i % 256 := Int.emod_nonneg i (by decide)
  have h2 : i % 256 < 256 := Int.emod_lt_of_pos i (by decide)
  omega

/-- C1: In the dual-path build every version-sensitive accessor is claimed
to match the legacy values below the threshold and the new-only values at
or above it.  The axis-sentinel accessor violates the current-runtime half:
at the threshold runtime version 0x00000012 the dual path yields -1 while
the new-only path defines NPY_RAVEL_AXIS as NPY_MIN_INT = -2147483648, so
the two differ. -/
theorem c1_dual_ravel_axis_current_mismatch :
    NPY_RAVEL_AXIS_dualPath 0x00000012 = -1 ∧
    NPY_RAVEL_AXIS_newOnly = -2147483648 ∧
    NPY_RAVEL_AXIS_dualPath 0x00000012 ≠ NPY_RAVEL_AXIS_newOnly := by
  refine ⟨rfl, rfl, ?_⟩
  decide

/-- C2: the gate is total and mutually exclusive over all build
configurations, and follows exactly the stated policy: feature version at
or above the threshold selects new-only; otherwise declared ABI below
0x02000000 selects legacy-only; otherwise dual-path. -/
theorem c2_gate_total_exclusive (fv abi : Nat) :
    (NPY_2_0_API_VERSION ≤ fv → gateSelect fv abi = GatePath.newOnly) ∧
    (fv < NPY_2_0_API_VERSION → abi < 0x02000000 →
      gateSelect fv abi = GatePath.legacyOnly) ∧
    (fv < NPY_2_0_API_VERSION → 0x02000000 ≤ abi →
      gateSelect fv abi = GatePath.dualPath) ∧
    ((gateSelect fv abi = GatePath.newOnly ∧
      gateSelect fv abi ≠ GatePath.legacyOnly ∧
      gateSelect fv abi ≠ GatePath.dualPath) ∨
     (gateSelect fv abi ≠ GatePath.newOnly ∧
      gateSelect fv abi = GatePath.legacyOnly ∧
      gateSelect fv abi ≠ GatePath.dualPath) ∨
     (gateSelect fv abi ≠ GatePath.newOnly ∧
      gateSelect fv abi ≠ GatePath.legacyOnly ∧
      gateSelect fv abi = GatePath.dualPath)) := by
  by_cases h1 : NPY_2_0_API_VERSION ≤ fv
  · simp [gateSelect, h1]
  · by_cases h2 : abi < 0x02000000
    · simp [gateSelect, h1, h2]
    · simp [gateSelect, h1, h2]

/-- Witness for C2: the three policy branches at concrete build
configurations. -/
theorem c2_gate_total_exclusive_witness :
    gateSelect 0x00000012 0x01000009 = GatePath.newOnly ∧
    gateSelect 0x00000011 0x01000009 = GatePath.legacyOnly ∧
    gateSelect 0x00000011 0x02000000 = GatePath.dualPath :=
  ⟨(c2_gate_total_exclusive 0x00000012 0x01000009).1 (by decide),
   (c2_gate_total_exclusive 0x00000011 0x01000009).2.1 (by decide) (by decide),
   (c2_gate_total_exclusive 0x00000011 0x02000000).2.2.1 (by decide) (by decide)⟩

/-- C3: with the threshold equal to 0x00000012, the dual-path axis-sentinel
accessor yields one fixed encoding (32) for every legacy runtime and a
different fixed encoding (-1) for every current runtime; in the dual path,
the only build path where both encodings are reachable, the two encodings
are unequal. -/
theorem c3_ravel_axis_sentinels_differ :
    NPY_2_0_API_VERSION = 0x00000012 ∧
    (∀ rt : Nat, rt < NPY_2_0_API_VERSION → NPY_RAVEL_AXIS_dualPath rt = 32) ∧
    (∀ rt : Nat, NPY_2_0_API_VERSION ≤ rt → NPY_RAVEL_AXIS_dualPath rt = -1) ∧
    (∀ rtOld rtNew : Nat, rtOld < NPY_2_0_API_VERSION →
      NPY_2_0_API_VERSION ≤ rtNew →
      NPY_RAVEL_AXIS_dualPath rtOld ≠ NPY_RAVEL_AXIS_dualPath rtNew) := by
  refine ⟨rfl, ?_, ?_, ?_⟩
  · intro rt h
    simp [NPY_RAVEL_AXIS_dualPath, Nat.not_le.mpr h]
  · intro rt h
    simp [NPY_RAVEL_AXIS_dualPath, h]
  · intro rtOld rtNew hOld hNew
    simp [NPY_RAVEL_AXIS_dualPath, Nat.not_le.mpr hOld, hNew]

/-- Witness for C3: the two sentinel encodings at runtime versions
0x00000011 and 0x00000012. -/
theorem c3_ravel_axis_sentinels_differ_witness :
    NPY_RAVEL_AXIS_dualPath 0x00000011 = 32 ∧
    NPY_RAVEL_AXIS_dualPath 0x00000012 = -1 ∧
    NPY_RAVEL_AXIS_dualPath 0x00000011 ≠ NPY_RAVEL_AXIS_dualPath 0x00000012 :=
  ⟨c3_ravel_axis_sentinels_differ.2.1 0x00000011 (by decide),
   c3_ravel_axis_sentinels_differ.2.2.1 0x00000012 (by decide),
   c3_ravel_axis_sentinels_differ.2.2.2 0x00000011 0x00000012 (by decide)
     (by decide)⟩

/-- C4: for every descriptor in the legacy layout, the flags-extraction
accessor of the dual path resolved to a legacy runtime returns the same
field value as the legacy-only build definition. -/
theorem c4_flags_cross_path_consistency (p : PyArray_DescrProto)
    (rt : Nat) (h : rt < NPY_2_0_API_VERSION) :
    PyDataType_FLAGS_dualPath rt (DescrHandle.legacyLayout p) =
      some (PyDataType_FLAGS_legacyOnly p) := by
  simp [PyDataType_FLAGS_dualPath, PyDataType_FLAGS_legacyOnly,
    Nat.not_le.mpr h]

/-- Witness for C4: a legacy descriptor with flags byte -3 (as a C char)
read at runtime version 0x00000011. -/
theorem c4_flags_cross_path_consistency_witness :
    PyDataType_FLAGS_dualPath 0x00000011
        (DescrHandle.legacyLayout (PyArray_DescrProto.mk (-3))) =
      some (PyDataType_FLAGS_legacyOnly (PyArray_DescrProto.mk (-3))) :=
  c4_flags_cross_path_consistency (PyArray_DescrProto.mk (-3)) 0x00000011
    (by decide)

/-- C5: if the compile-time feature version is not defined, including the
layer is a hard compile error carrying the corrective message; whenever it
is defined, the build is configured with exactly the supplied feature
version — no default is ever substituted. -/
theorem c5_missing_feature_version_hard_error :
    (∀ abi : Nat, npy2CompatInclude none abi =
      CompatHeaderResult.compileError npyFeatureVersionErrorMessage) ∧
    (∀ fv abi : Nat, npy2CompatInclude (some fv) abi =
      CompatHeaderResult.configured fv (gateSelect fv abi)) :=
  ⟨fun _ => rfl, fun _ _ => rfl⟩

/-- C6: the legacy-only aliases resolve to their canonical counterparts:
the old name NPY_NTYPES is exactly NPY_NTYPES_LEGACY (the legacy value
substitution), and the name PyArray_DescrProto denotes exactly the 1.x
descriptor struct, so behavior through the alias is identical. -/
theorem c6_legacy_aliases_resolve :
    NPY_NTYPES = NPY_NTYPES_LEGACY ∧
    (∀ d : PyArray_DescrProto,
      PyDataType_FLAGS_legacyOnly d = (d.flags % 256).toNat) :=
  ⟨rfl, fun _ => rfl⟩

/-- C7: given that the native API handle was imported before the first
read, every later read of the runtime-version cache — after any sequence
of shim operations, wherever they occur in the call graph — returns the
same value as the first read. -/
theorem c7_runtime_version_idempotent (host : Option PyArrayAPITable)
    (s : ProcState) (t : PyArrayAPITable) (h : s.pyArrayAPI = some t)
    (ops : List ShimOp) :
    PyArray_RUNTIME_VERSION_read (shimRun host s ops) =
      PyArray_RUNTIME_VERSION_read s := by
  rw [shimRun_preserves_imported host s t h ops]

/-- Witness for C7: an imported state read again after a redundant import
and two reads. -/
theorem c7_runtime_version_idempotent_witness :
    PyArray_RUNTIME_VERSION_read
        (shimRun (some (PyArrayAPITable.mk 0x00000012))
          (ProcState.mk (some (PyArrayAPITable.mk 0x00000012)))
          [ShimOp.readRuntimeVersion, ShimOp.importNumPyAPI,
           ShimOp.readRuntimeVersion]) =
      PyArray_RUNTIME_VERSION_read
        (ProcState.mk (some (PyArrayAPITable.mk 0x00000012))) :=
  c7_runtime_version_idempotent (some (PyArrayAPITable.mk 0x00000012))
    (ProcState.mk (some (PyArrayAPITable.mk 0x00000012)))
    (PyArrayAPITable.mk 0x00000012) rfl
    [ShimOp.readRuntimeVersion, ShimOp.importNumPyAPI,
     ShimOp.readRuntimeVersion]

/-- C8: the initialization helper imports only when the handle is unset,
returns 0 when the handle is already imported, and after a successful
one-time import every further call is a no-op that returns 0 and leaves the
handle unchanged. -/
theorem c8_import_helper_idempotent (host : Option PyArrayAPITable)
    (s : ProcState) :
    (∀ t : PyArrayAPITable, s.pyArrayAPI = some t →
      PyArray_ImportNumPyAPI host s = (0, s)) ∧
    (s.pyArrayAPI = none → ∀ t : PyArrayAPITable, host = some t →
      PyArray_ImportNumPyAPI host s = (0, ProcState.mk (some t)) ∧
      PyArray_ImportNumPyAPI host (ProcState.mk (some t)) =
        (0, ProcState.mk (some t))) := by
  constructor
  · intro t ht
    simp [PyArray_ImportNumPyAPI, ht]
  · intro hn t hh
    constructor
    · simp [PyArray_ImportNumPyAPI, hn, importArrayCore, hh]
    · simp [PyArray_ImportNumPyAPI]

/-- Witness for C8: a fresh state imports the host table with version
0x00000012 and returns 0; the repeat call is a no-op returning 0. -/
theorem c8_import_helper_idempotent_witness :
    PyArray_ImportNumPyAPI (some (PyArrayAPITable.mk 0x00000012))
        (ProcState.mk none) =
      (0, ProcState.mk (some (PyArrayAPITable.mk 0x00000012))) ∧
    PyArray_ImportNumPyAPI (some (PyArrayAPITable.mk 0x00000012))
        (ProcState.mk (some (PyArrayAPITable.mk 0x00000012))) =
      (0, ProcState.mk (some (PyArrayAPITable.mk 0x00000012))) :=
  (c8_import_helper_idempotent (some (PyArrayAPITable.mk 0x00000012))
    (ProcState.mk none)).2 rfl (PyArrayAPITable.mk 0x00000012) rfl

/-- C9: in the dual path the default-integer accessor returns exactly one
of the two fixed identifiers: NPY_INTP if and only if the cached runtime
version is at or above the threshold, NPY_LONG if and only if it is
below. -/
theorem c9_default_int_dual (rt : Nat) :
    (NPY_DEFAULT_INT_dualPath rt = TypeIdent.NPY_INTP ↔
      NPY_2_0_API_VERSION ≤ rt) ∧
    (NPY_DEFAULT_INT_dualPath rt = TypeIdent.NPY_LONG ↔
      rt < NPY_2_0_API_VERSION) ∧
    (NPY_DEFAULT_INT_dualPath rt = TypeIdent.NPY_INTP ∨
      NPY_DEFAULT_INT_dualPath rt = TypeIdent.NPY_LONG) ∧
    ¬(NPY_DEFAULT_INT_dualPath rt = TypeIdent.NPY_INTP ∧
      NPY_DEFAULT_INT_dualPath rt = TypeIdent.NPY_LONG) := by
  by_cases h : NPY_2_0_API_VERSION ≤ rt
  · simp [NPY_DEFAULT_INT_dualPath, h]
  · simp [NPY_DEFAULT_INT_dualPath, h]
    omega

/-- Witness for C9: the accessor at runtime versions 0x00000012 and
0x00000011. -/
theorem c9_default_int_dual_witness :
    NPY_DEFAULT_INT_dualPath 0x00000012 = TypeIdent.NPY_INTP ∧
    NPY_DEFAULT_INT_dualPath 0x00000011 = TypeIdent.NPY_LONG :=
  ⟨(c9_default_int_dual 0x00000012).1.mpr (by decide),
   (c9_default_int_dual 0x00000011).2.1.mpr (by decide)⟩

/-- C10: on every build path — new-only, legacy-only, and both runtime
branches of the dual path — the flags-extraction accessor truncates the
flags field through an unsigned 8-bit conversion before widening, so every
value it returns lies in 0..255. -/
theorem c10_flags_byte_range :
    (∀ d : PyArray_Descr2x, PyDataType_FLAGS_newOnly d ≤ 255) ∧
    (∀ d : PyArray_DescrProto, PyDataType_FLAGS_legacyOnly d ≤ 255) ∧
    (∀ rt : Nat, ∀ dh : DescrHandle, ∀ v : Nat,
      PyDataType_FLAGS_dualPath rt dh = some v → v ≤ 255) := by
  refine ⟨?_, ?_, ?_⟩
  · intro d
    have : d.flags % 256 < 256 := Nat.mod_lt _ (by decide)
    unfold PyDataType_FLAGS_newOnly
    omega
  · intro d
    exact byte_toNat_le d.flags
  · intro rt dh v hv
    unfold PyDataType_FLAGS_dualPath at hv
    by_cases h : NPY_2_0_API_VERSION ≤ rt
    · rw [if_pos h] at hv
      cases dh with
      | currentLayout d =>
        have hlt : d.flags % 256 < 256 := Nat.mod_lt _ (by decide)
        simp at hv
        omega
      | legacyLayout d => simp at hv
    · rw [if_neg h] at hv
      cases dh with
      | currentLayout d => simp at hv
      | legacyLayout d =>
        have := byte_toNat_le d.flags
        simp at hv
        omega

/-- Witness for C10: the dual path at runtime version 0x00000012 on a 2.x
descriptor whose raw flags word exceeds a byte. -/
theorem c10_flags_byte_range_witness :
    PyDataType_FLAGS_dualPath 0x00000012
        (DescrHandle.currentLayout (PyArray_Descr2x.mk 1000)) =
      some 232 ∧ 232 ≤ 255 :=
  ⟨by decide,
   c10_flags_byte_range.2.2 0x00000012
     (DescrHandle.currentLayout (PyArray_Descr2x.mk 1000)) 232 (by decide)⟩
